import Mathlib

/-!
Verification of the intent/summary extraction and batch-spreadsheet core of
the LocalSttTtsLLM repository.

The development shallowly embeds the Python modules `intent_analyzer.py`,
`llm_module.py`, `process_transcribe_to_excel.py`, `process_simple.py`,
`process_bulk_fast.py`, `process_bulk_optimized.py` and
`resume_processing.py`.  External effects (the Ollama chat service, the
spreadsheet files on disk) are passed in explicitly: the chat service is an
oracle function, a workbook is a list of rows, a missing file is `none`.
Character-level operations model the ASCII fragment of the Python string
methods; the Unicode-category-dependent `str.isalnum` is taken as an explicit
parameter where the source uses it.
-/

/-! ## Character classes (ASCII fragment of the Python semantics) -/

/-- Whitespace characters recognised by `str.strip()` / `str.split()` and by
the regex class used in `intent_analyzer.py` (ASCII fragment: space, tab,
newline, vertical tab, form feed, carriage return). -/
def isWsChar (c : Char) : Bool :=
  c.toNat = 32 || c.toNat = 9 || c.toNat = 10 || c.toNat = 11 || c.toNat = 12 || c.toNat = 13

/-- ASCII upper-case letter test, the case that `str.lower()` changes. -/
def pyIsUpper (c : Char) : Bool := 65 ≤ c.toNat && c.toNat ≤ 90

/-- Embedding of `str.lower()` on a single character (ASCII fragment):
an upper-case ASCII letter moves down by 32 code points, everything else is
unchanged. -/
def pyToLower (c : Char) : Char :=
  if h : 65 ≤ c.toNat ∧ c.toNat ≤ 90 then
    ⟨c.val + 32, by
      have hv : (c.val + 32).toNat = (c.val.toNat + (32 : UInt32).toNat) % 2 ^ 32 := rfl
      have h3 : c.val.toNat = c.toNat := rfl
      have h32 : (32 : UInt32).toNat = 32 := rfl
      constructor
      · show (c.val + 32).toNat < 0xd800
        rw [hv, h32, h3]
        have h2 : c.toNat ≤ 90 := h.2
        omega⟩
  else c

/-- Characters matched by the regex word class in `re.sub(r'[^\w-]', '', word)`
(ASCII fragment of the Python `\w`): digits, letters, underscore. -/
def pyIsWordChar (c : Char) : Bool :=
  (48 ≤ c.toNat && c.toNat ≤ 57) || (65 ≤ c.toNat && c.toNat ≤ 90) ||
    (97 ≤ c.toNat && c.toNat ≤ 122) || c.toNat = 95

/-- ASCII letter test: `c.isalpha() and ord(c) < 128` from
`process_transcribe_to_excel.py` is exactly this predicate. -/
def pyIsAsciiAlpha (c : Char) : Bool :=
  (65 ≤ c.toNat && c.toNat ≤ 90) || (97 ≤ c.toNat && c.toNat ≤ 122)

/-- Hyphen, kept by the word-cleaning regex of `_parse_response`. -/
def isHyphen (c : Char) : Bool := c.toNat = 45

/-! ## List-of-characters utilities shared by the embeddings -/

/-- Both-ends trim, the embedding of `str.strip()` with no argument. -/
def trimWs (l : List Char) : List Char :=
  ((l.dropWhile isWsChar).reverse.dropWhile isWsChar).reverse

/-- Both-ends strip of a character set, the embedding of `str.strip(chars)`. -/
def dropCharSetEnds (cs : List Char) (l : List Char) : List Char :=
  ((l.dropWhile (fun c => cs.contains c)).reverse.dropWhile (fun c => cs.contains c)).reverse

/-- Removal of one trailing run of characters from a set, the embedding of
`re.sub(r'[.,;:!?]+$', '', s)`. -/
def dropTrailingRun (cs : List Char) (l : List Char) : List Char :=
  (l.reverse.dropWhile (fun c => cs.contains c)).reverse

/-- Helper for `splitWs`: accumulates the current word (reversed). -/
def splitWsAux : List Char → List Char → List (List Char)
  | [], acc => if acc.isEmpty then [] else [acc.reverse]
  | c :: t, acc =>
    if isWsChar c then
      if acc.isEmpty then splitWsAux t [] else acc.reverse :: splitWsAux t []
    else splitWsAux t (c :: acc)

/-- Embedding of `str.split()` with no argument: split on whitespace runs,
dropping empty pieces. -/
def splitWs (l : List Char) : List (List Char) := splitWsAux l []

/-- Substring test on character lists, used to embed the Python `in` operator
on strings. -/
def hasSub (pat : List Char) : List Char → Bool
  | [] => pat.isEmpty
  | c :: t => pat.isPrefixOf (c :: t) || hasSub pat t

/-- Embedding of the Python expression `pat in s` for strings. -/
def pyIn (pat s : String) : Bool := hasSub pat.data s.data

/-- Embedding of `s.lower()` on whole strings (ASCII fragment). -/
def pyLower (s : String) : String := String.mk (s.data.map pyToLower)

/-- Python truthiness of an optional string: `None` and the empty string are
falsy. -/
def pyTruthyStr : Option String → Bool
  | none => false
  | some s => s ≠ ""

/-- Blank-cell test used by every batch runner:
`not transcribed_text or not str(transcribed_text).strip()`. -/
def pyBlankCell : Option String → Bool
  | none => true
  | some t => t = "" || (trimWs t.data).isEmpty

/-! ## `intent_analyzer.py`: `IntentAnalyzer._parse_response` -/

/-- Result dictionary of `IntentAnalyzer.analyze` / `_parse_response`; the
source dictionary has the single key `intent`. -/
structure IntentResult where
  intent : String
deriving DecidableEq, Repr

/-- Quote characters stripped by `response.strip()` with the two-quote
argument in `_parse_response` (a double quote and an apostrophe). -/
def quoteChars : List Char := ['\"', Char.ofNat 39]

/-- Punctuation class of the trailing-punctuation regex in `_parse_response`. -/
def punctChars : List Char := ['.', ',', ';', ':', '!', '?']

/-- Embedding of
`re.sub(r'^(intent|intent:|the intent is|user intent|intent is)[:\s]*', '', response, flags=re.IGNORECASE)`.
The regex alternation is ordered, so an input starting with `intent` always
takes the first alternative; the matched label is followed by a greedy run of
colons and whitespace.  (The alternatives `intent:` and `intent is` are
shadowed by `intent` and therefore do not appear as separate cases.) -/
def stripIntentLabel (l : List Char) : List Char :=
  let low := l.map pyToLower
  let dropRest := fun (r : List Char) => r.dropWhile (fun c => c.toNat = 58 || isWsChar c)
  if ("intent".data).isPrefixOf low then dropRest (l.drop 6)
  else if ("the intent is".data).isPrefixOf low then dropRest (l.drop 13)
  else if ("user intent".data).isPrefixOf low then dropRest (l.drop 11)
  else l

/-- Per-word cleaning step of `_parse_response`:
`re.sub(r'[^\w-]', '', word)` keeps word characters and hyphens. -/
def cleanWord (w : List Char) : List Char :=
  w.filter (fun c => pyIsWordChar c || isHyphen c)

/-- The cleaned, lower-cased word list built by the loop of `_parse_response`
(before the three-word cap): trim, strip the leading intent label, trim,
strip surrounding quotes, strip trailing punctuation, split on whitespace,
clean each word and drop the empty ones, lower-case the survivors. -/
def intentWords (response : String) : List (List Char) :=
  let r0 := trimWs response.data
  let r1 := trimWs (stripIntentLabel r0)
  let r2 := dropCharSetEnds quoteChars r1
  let r3 := dropTrailingRun punctChars r2
  (splitWs r3).filterMap (fun w =>
    let cw := cleanWord w
    if cw.isEmpty then none else some (cw.map pyToLower))

/-- Embedding of `IntentAnalyzer._parse_response`.  An empty (falsy) response
returns the initial dictionary `{intent: ''}` unchanged; otherwise the
pipeline above runs, the word list is capped at 3 entries, and an empty word
list produces the literal `unknown`. -/
def parse_response (response : String) : IntentResult :=
  if response = "" then ⟨""⟩
  else
    let words := intentWords response
    let words3 := if words.length > 3 then words.take 3 else words
    ⟨if words3.isEmpty then "unknown" else String.mk (List.intercalate [' '] words3)⟩

/-! ## `llm_module.py`: `LLMModule.generate`

The Ollama client is external: `ollama.chat` is an oracle indexed by the
number of chat calls already made in this `generate` invocation, and
`ollama.list` (used by the tinyllama fallback) is a single external result.
An oracle answer is either a reply dictionary (with `some content` when the
`response['message']['content']` shape check succeeds, `none` otherwise) or a
raised exception carrying `str(e)`. -/

/-- A chat message dictionary `{'role': ..., 'content': ...}`. -/
structure ChatMessage where
  role : String
  content : String
deriving DecidableEq, Repr

/-- The options dictionary passed to `ollama.chat`; `numGpu` is `none` when
the `num_gpu` key is absent. -/
structure ChatOptions where
  temperature : ℚ
  numPredict : Nat
  topK : Nat
  topP : ℚ
  numGpu : Option Int
deriving DecidableEq, Repr

/-- One call to `ollama.chat`: model name, message list and options. -/
structure ChatRequest where
  model : String
  messages : List ChatMessage
  options : ChatOptions
deriving DecidableEq, Repr

/-- Outcome of one `ollama.chat` call as seen by `generate`. -/
inductive ChatReply
  | reply (content : Option String)
  | raised (err : String)
deriving DecidableEq, Repr

/-- The mutable state of `LLMModule` set up by `__init__`
(`model_name`, `use_cpu`, `num_gpu`). -/
structure LLMModule where
  model_name : String
  use_cpu : Bool
  num_gpu : Int
deriving DecidableEq, Repr

/-- The `LLMModule` built by `LLMModule()` with all defaults. -/
def llmDefault : LLMModule := ⟨"phi3:mini", false, 0⟩

deriving instance DecidableEq for Except

/-- What one `generate` invocation did: the returned value (an `Except.error`
would model an exception escaping to the caller), the number of `ollama.chat`
calls made, the number of backoff sleeps performed (the source of `generate`
contains no sleep call, so no branch of the embedding increments it), and the
final `self.model_name` (mutated by the tinyllama fallback). -/
structure GenerateOutcome where
  result : Except String String
  chatCalls : Nat
  backoffWaits : Nat
  finalModel : String
deriving DecidableEq, Repr

/-- Message-list construction of `generate`: the system prompt is prepended
only when truthy, then the user prompt. -/
def buildMessages (system_prompt : Option String) (prompt : String) : List ChatMessage :=
  (if pyTruthyStr system_prompt then [⟨"system", system_prompt.getD ""⟩] else []) ++
    [⟨"user", prompt⟩]

/-- Fallback string returned when the reply dictionary has an unexpected
shape. -/
def unexpectedFormat : String := "I received an unexpected response format from the model."

/-- Fallback string of the memory/GPU error path after all retries failed. -/
def memoryApology (e : String) : String :=
  "I apologize, but I\x27m having memory issues. Please run \x27ollama pull tinyllama\x27 and restart. Error: " ++ e

/-- Fallback string of the generic error path:
`error_msg = f"Error generating response: {e}"` spliced into the apology. -/
def errorApology (e : String) : String :=
  "I apologize, but I encountered an error: Error generating response: " ++ e ++
    ". Please make sure Ollama is running and the model is available."

/-- The error triage of the `except` block of `generate`:
`'memory' in error_msg or 'gpu' in error_msg or '500' in str(e)` where
`error_msg = str(e).lower()`. -/
def isMemoryError (e : String) : Bool :=
  pyIn "memory" (pyLower e) || pyIn "gpu" (pyLower e) || pyIn "500" e

/-- Embedding of `LLMModule.generate`.  Every branch of the source returns a
string: a successful reply content, the unexpected-format fallback, or one of
the apology fallbacks; the memory/GPU path retries once in CPU mode and then
once on tinyllama when `ollama.list` shows it, any other error returns the
generic apology at once.  No branch re-raises, and no branch sleeps. -/
def generate (self : LLMModule) (chat : Nat → ChatRequest → ChatReply)
    (listModels : Except String (List String)) (prompt : String)
    (system_prompt : Option String) (max_tokens : Nat) (temperature : ℚ) :
    GenerateOutcome :=
  let messages := buildMessages system_prompt prompt
  let baseOpts : ChatOptions := ⟨temperature, max_tokens, 20, 9/10, none⟩
  let opts0 :=
    if self.use_cpu || self.num_gpu == 0 then { baseOpts with numGpu := some 0 }
    else if self.num_gpu > 0 then { baseOpts with numGpu := some self.num_gpu }
    else baseOpts
  let cpuOpts : ChatOptions := ⟨temperature, max_tokens, 20, 9/10, some 0⟩
  match chat 0 ⟨self.model_name, messages, opts0⟩ with
  | .reply (some c) => ⟨.ok c, 1, 0, self.model_name⟩
  | .reply none => ⟨.ok unexpectedFormat, 1, 0, self.model_name⟩
  | .raised e =>
    if isMemoryError e then
      match chat 1 ⟨self.model_name, messages, cpuOpts⟩ with
      | .reply (some c) => ⟨.ok c, 2, 0, self.model_name⟩
      | .reply none => ⟨.ok unexpectedFormat, 2, 0, self.model_name⟩
      | .raised _ =>
        match listModels with
        | .error _ => ⟨.ok (memoryApology e), 2, 0, self.model_name⟩
        | .ok names =>
          if names.any (fun n => pyIn "tinyllama" n) then
            match chat 2 ⟨"tinyllama", messages, cpuOpts⟩ with
            | .reply (some c) => ⟨.ok c, 3, 0, "tinyllama"⟩
            | .reply none => ⟨.ok unexpectedFormat, 3, 0, "tinyllama"⟩
            | .raised _ => ⟨.ok (memoryApology e), 3, 0, "tinyllama"⟩
          else ⟨.ok (memoryApology e), 2, 0, self.model_name⟩
    else ⟨.ok (errorApology e), 1, 0, self.model_name⟩

/-! ## `intent_analyzer.py`: `IntentAnalyzer.analyze` -/

/-- The fixed system prompt of `IntentAnalyzer.analyze`. -/
def intentSystemPrompt : String :=
  "You are an intent classifier. Your task is to identify the user\x27s intent from the given text and provide it in exactly 2-3 words in English. \nExamples of correct intents:\n- \"power cut\" (for power/electricity issues)\n- \"complaint\" (for complaints)\n- \"bill inquiry\" (for bill questions)\n- \"connection request\" (for new connections)\n- \"payment issue\" (for payment problems)\n- \"service request\" (for service requests)\n\nProvide ONLY the intent in 2-3 words, nothing else."

/-- The per-request analysis prompt of `IntentAnalyzer.analyze`. -/
def analysisPrompt (text : String) : String :=
  "Identify the user\x27s intent from this text. Provide ONLY 2-3 words in English.\n\nText: " ++
    text ++ "\n\nIntent (2-3 words only):"

/-- Embedding of `IntentAnalyzer.analyze`.  A falsy or whitespace-only text
returns `{intent: ''}` without any service call; otherwise `generate` is
invoked with `max_tokens=20`, `temperature=0.2` and the fixed prompts, a
normal return is parsed by `_parse_response`, and only a raised exception
would produce `{intent: 'unknown'}`. -/
def analyze (llm : LLMModule) (chat : Nat → ChatRequest → ChatReply)
    (listModels : Except String (List String)) (text : String) : IntentResult :=
  if text = "" || (trimWs text.data).isEmpty then ⟨""⟩
  else
    match (generate llm chat listModels (analysisPrompt text) (some intentSystemPrompt)
        20 (2/10)).result with
    | .ok response => parse_response response
    | .error _ => ⟨"unknown"⟩


/-! ## `process_transcribe_to_excel.py`: `_detect_language_from_text`

The per-script counts compare code points against fixed Unicode blocks and
are embedded exactly; the denominator counts characters accepted by the
host `str.isalnum`, whose full Unicode table is outside the embedding, so it
is a parameter of the definitions. -/

/-- The four candidate languages of the detector. -/
inductive Lang
  | telugu
  | hindi
  | urdu
  | english
deriving DecidableEq, Repr

/-- Number of characters of `l` whose code point lies in `[lo, hi]`. -/
def scriptCount (lo hi : Nat) (l : List Char) : Nat :=
  (l.filter (fun c => lo ≤ c.toNat && c.toNat ≤ hi)).length

/-- Number of ASCII letters of `l` (`c.isalpha() and ord(c) < 128`). -/
def englishCount (l : List Char) : Nat := (l.filter pyIsAsciiAlpha).length

/-- Number of characters accepted by the given `str.isalnum` predicate. -/
def alnumCount (isAlnum : Char → Bool) (l : List Char) : Nat :=
  (l.filter isAlnum).length

/-- The per-language ratio dictionary of `_detect_language_from_text`:
script count over alphanumeric count (division by a zero total yields 0 in
`ℚ`, matching the `if total_chars > 0 else 0` guard of the source). -/
def langRatio (isAlnum : Char → Bool) (text : List Char) : Lang → ℚ
  | .telugu => (scriptCount 0xC00 0xC7F text : ℚ) / (alnumCount isAlnum text : ℚ)
  | .hindi => (scriptCount 0x900 0x97F text : ℚ) / (alnumCount isAlnum text : ℚ)
  | .urdu => (scriptCount 0x600 0x6FF text : ℚ) / (alnumCount isAlnum text : ℚ)
  | .english => (englishCount text : ℚ) / (alnumCount isAlnum text : ℚ)

/-- Embedding of `max(ratios, key=ratios.get)`: the Python `max` walks the
dictionary in insertion order (telugu, hindi, urdu, english) and keeps the
first maximum, replacing only on a strictly greater key. -/
def pyMaxLang (f : Lang → ℚ) : Lang :=
  let step := fun (best l : Lang) => if f l > f best then l else best
  step (step (step Lang.telugu Lang.hindi) Lang.urdu) Lang.english

/-- Embedding of `TranscribeProcessor._detect_language_from_text`; the
configured `self.language` is `defaultLang`.  A falsy or whitespace-only
text returns the default; the counts run over the stripped text; a zero
alphanumeric total returns the default; otherwise the argmax language is
returned when its ratio exceeds 0.1 and the default otherwise. -/
def detect_language_from_text (isAlnum : Char → Bool) (defaultLang : Lang)
    (text : String) : Lang :=
  if text = "" || (trimWs text.data).isEmpty then defaultLang
  else
    let t := trimWs text.data
    let total := alnumCount isAlnum t
    if total = 0 then defaultLang
    else
      let ratios := langRatio isAlnum t
      let detected := pyMaxLang ratios
      if ratios detected > 1/10 then detected else defaultLang

/-- ASCII instance of the `str.isalnum` parameter, used for concrete tests. -/
def asciiIsAlnum (c : Char) : Bool :=
  (48 ≤ c.toNat && c.toNat ≤ 57) || pyIsAsciiAlpha c

/-! ## Spreadsheet store: rows, header initialisation, resume locator -/

/-- One worksheet row: the cell values of the columns, `none` for an empty
cell (`openpyxl` yields `None` there). -/
abbrev ExcelRow := List (Option String)

/-- The fixed header written by `TranscribeProcessor._create_headers`. -/
def excelHeader : ExcelRow :=
  [some "Audio Name", some "Transcribe", some "Summary", some "Intent"]

/-- Embedding of `_create_headers` on the row list of a loaded workbook: the
four header cells are written into row 1 (creating it when the sheet is
empty); the remaining rows are untouched. -/
def create_headers : List ExcelRow → List ExcelRow
  | [] => [excelHeader]
  | _ :: rest => excelHeader :: rest

/-- The value of `ws.cell(1, 1)`: `none` when the sheet has no rows, the
first row no cells, or the cell is empty. -/
def firstCellValue : List ExcelRow → Option String
  | [] => none
  | r :: _ =>
    match r with
    | [] => none
    | v :: _ => v

/-- Embedding of `TranscribeProcessor._init_excel_file` as a function from
the state of the store file (`none` when the file does not exist) to its
state afterwards: a missing file is created with just the header
(`_create_new_excel`); an existing file gets the header written into row 1
exactly when `ws.cell(1, 1).value is None`; otherwise it is kept as is. -/
def init_excel_file : Option (List ExcelRow) → List ExcelRow
  | none => [excelHeader]
  | some rows => if firstCellValue rows = none then create_headers rows else rows

/-- Embedding of `ws.max_row` of `openpyxl`: the row count, but at least 1
(an empty sheet reports one row). -/
def pyMaxRow (rows : List ExcelRow) : Nat := max rows.length 1

/-- Embedding of `resume_processing.find_last_processed_row`: `2` when the
output file does not exist, otherwise `ws.max_row + 1`. -/
def find_last_processed_row : Option (List ExcelRow) → Nat
  | none => 2
  | some rows => pyMaxRow rows + 1


/-! ## Batch runners: the row-counting loops

The three drivers share the shape: a source row carries an optional audio
name and an optional transcript cell; what `TranscribeProcessor.process_text`
does on a given row is an oracle (it may raise, return `None`, or return a
result dictionary), and whether `save_to_excel` raises on a given row is an
oracle.  The counters are folded over the rows; in the concurrent drivers the
three counters are commutative sums over completed futures, so the completion
order does not affect the totals and the embedding folds in source order. -/

/-- The result dictionary assembled by `TranscribeProcessor.process_text`. -/
structure AnalysisRow where
  audio_name : String
  transcribe : String
  summary : String
  intent : String
deriving DecidableEq, Repr

/-- What a `process_text` call did for one row. -/
inductive ProcOutcome
  | raised (e : String)
  | returnedNone
  | returned (r : AnalysisRow)
deriving DecidableEq, Repr

/-- A source row: `(audio cell, transcript cell)`. -/
abbrev SrcRow := Option String × Option String

/-- Final counters reported by every batch runner. -/
structure Counts where
  processed : Nat
  failed : Nat
  skipped : Nat
deriving DecidableEq, Repr

/-- The per-row classification of `process_simple.process_excel_simple`:
the whole row body sits in one `try`; an empty cell bumps `skipped`, a
`process_text` exception or `None` result bumps `failed`, a `save_to_excel`
exception is caught by the same handler and bumps `failed`, and only a saved
result bumps `processed`. -/
def simpleStep (out : ProcOutcome) (saveRaises : Bool) (text : Option String)
    (c : Counts) : Counts :=
  if pyBlankCell text then { c with skipped := c.skipped + 1 }
  else
    match out with
    | .raised _ => { c with failed := c.failed + 1 }
    | .returnedNone => { c with failed := c.failed + 1 }
    | .returned _ =>
      if saveRaises then { c with failed := c.failed + 1 }
      else { c with processed := c.processed + 1 }

/-- The row loop of `process_excel_simple` over the source rows, threading
the row index into the oracles and the counters through `simpleStep`. -/
def process_excel_simple_loop (proc : Nat → ProcOutcome) (save : Nat → Bool) :
    List SrcRow → Nat → Counts → Counts
  | [], _, c => c
  | row :: rest, i, c =>
    process_excel_simple_loop proc save rest (i + 1)
      (simpleStep (proc i) (save i) row.2 c)

/-- Embedding of `FastBulkProcessor.process_single_row`: the worker-side
triple `(result, error)` (the row index is threaded separately).  An empty
cell yields the error string `Empty transcription`; an exception yields
`str(e)`; a `None` result yields `Processing failed`. -/
def fast_row_result (text : Option String) (out : ProcOutcome) :
    Option AnalysisRow × Option String :=
  if pyBlankCell text then (none, some "Empty transcription")
  else
    match out with
    | .raised e => (none, some e)
    | .returnedNone => (none, some "Processing failed")
    | .returned r => (some r, none)

/-- The collector step of `FastBulkProcessor.process_from_excel_fast`: a
result is saved (a save exception is caught by the collector `try` and bumps
`failed`); otherwise a truthy error string bumps `failed`, and when it equals
`Empty transcription` the `skipped` counter is bumped as well (the source
increments `failed` before testing for the empty-transcription marker). -/
def fastStep (rr : Option AnalysisRow × Option String) (saveRaises : Bool)
    (c : Counts) : Counts :=
  match rr.1 with
  | some _ =>
    if saveRaises then { c with failed := c.failed + 1 }
    else { c with processed := c.processed + 1 }
  | none =>
    match rr.2 with
    | some e =>
      if e = "" then c
      else
        let c1 := { c with failed := c.failed + 1 }
        if e = "Empty transcription" then { c1 with skipped := c1.skipped + 1 } else c1
    | none => c

/-- The counter totals of `process_from_excel_fast` over the source rows. -/
def process_from_excel_fast_loop (proc : Nat → ProcOutcome) (save : Nat → Bool) :
    List SrcRow → Nat → Counts → Counts
  | [], _, c => c
  | row :: rest, i, c =>
    process_from_excel_fast_loop proc save rest (i + 1)
      (fastStep (fast_row_result row.2 (proc i)) (save i) c)

/-- Embedding of `OptimizedBulkProcessor.process_single_row`: as the fast
variant but with the error markers `Empty` and `Failed`. -/
def optimized_row_result (text : Option String) (out : ProcOutcome) :
    Option AnalysisRow × Option String :=
  if pyBlankCell text then (none, some "Empty")
  else
    match out with
    | .raised e => (none, some e)
    | .returnedNone => (none, some "Failed")
    | .returned r => (some r, none)

/-- The collector step of `process_from_excel_optimized`: a result is saved
(a save exception bumps `failed`), the `Empty` marker bumps `skipped`, and
every other outcome bumps `failed`. -/
def optimizedStep (rr : Option AnalysisRow × Option String) (saveRaises : Bool)
    (c : Counts) : Counts :=
  match rr.1 with
  | some _ =>
    if saveRaises then { c with failed := c.failed + 1 }
    else { c with processed := c.processed + 1 }
  | none =>
    match rr.2 with
    | some e => if e = "Empty" then { c with skipped := c.skipped + 1 } else { c with failed := c.failed + 1 }
    | none => { c with failed := c.failed + 1 }

/-- The counter totals of `process_from_excel_optimized` over the source
rows (the batching only inserts sleeps between groups; the counters fold over
all rows). -/
def process_from_excel_optimized_loop (proc : Nat → ProcOutcome) (save : Nat → Bool) :
    List SrcRow → Nat → Counts → Counts
  | [], _, c => c
  | row :: rest, i, c =>
    process_from_excel_optimized_loop proc save rest (i + 1)
      (optimizedStep (optimized_row_result row.2 (proc i)) (save i) c)

/-! ## Constructor keyword binding (`__init__` call compatibility)

Python raises `TypeError` at call time, before the callee body runs, when a
keyword argument does not name a parameter.  The embedding checks the keyword
names of each call against the parameter list of the called `__init__`. -/

/-- The error raised by a keyword-binding failure. -/
inductive InitError
  | typeError
deriving DecidableEq, Repr

/-- Keyword binding of a Python call: every keyword argument must name a
declared parameter, otherwise `TypeError` is raised before the body runs. -/
def callBind (params : List String) (kwargs : List String) : Except InitError Unit :=
  if kwargs.all (fun k => params.contains k) then .ok () else .error .typeError

/-- Parameter names of `LLMModule.__init__` (besides `self`). -/
def llmModuleParams : List String := ["model_name", "use_cpu", "num_gpu"]

/-- Parameter names of `IntentAnalyzer.__init__` (besides `self`). -/
def intentAnalyzerParams : List String := ["llm_model", "api_key"]

/-- Embedding of `IntentAnalyzer.__init__`: its first statement calls
`LLMModule(model_name=llm_model, api_key=api_key)`, so the keyword names
`model_name` and `api_key` are bound against `LLMModule.__init__`. -/
def intent_analyzer_init (_llm_model : String) (_api_key : Option String) :
    Except InitError Unit :=
  callBind llmModuleParams ["model_name", "api_key"]

/-- Embedding of `TranscribeProcessor.__init__` up to its effect on the
store: it builds `LLMModule(model_name=model, api_key=api_key)`, then
`IntentAnalyzer(llm_model=model, api_key=api_key)` (whose own body repeats
the `LLMModule` call), and only then initialises the store file. -/
def transcribe_processor_init (llm_model : String) (_api_key : Option String)
    (store : Option (List ExcelRow)) : Except InitError (List ExcelRow) := do
  let _model := if llm_model ≠ "" then llm_model else "sarvam-m"
  callBind llmModuleParams ["model_name", "api_key"]
  callBind intentAnalyzerParams ["llm_model", "api_key"]
  callBind llmModuleParams ["model_name", "api_key"]
  pure (init_excel_file store)

/-- Exit status of the `process_excel_simple` entry point. -/
inductive RunExit
  | missingKey
  | missingSource
  | crashed (e : InitError)
  | finished (c : Counts)
deriving DecidableEq, Repr

/-- Embedding of the `process_simple.process_excel_simple` entry point: it
returns early when `SARVAM_API_KEY` is falsy or the source file is missing,
then constructs a `TranscribeProcessor` (passing the key on as `api_key`),
and only on success runs the row loop. -/
def process_excel_simple_entry (apiKey : Option String)
    (source : Option (List SrcRow)) (store : Option (List ExcelRow))
    (proc : Nat → ProcOutcome) (save : Nat → Bool) : RunExit :=
  if ¬ pyTruthyStr apiKey then .missingKey
  else
    match source with
    | none => .missingSource
    | some rows =>
      match transcribe_processor_init "sarvam-m" apiKey store with
      | .error e => .crashed e
      | .ok _ => .finished (process_excel_simple_loop proc save rows 2 ⟨0, 0, 0⟩)


/-! ## Helper lemmas -/

theorem pyToLower_toNat_of_upper (c : Char) (h : 65 ≤ c.toNat ∧ c.toNat ≤ 90) :
    (pyToLower c).toNat = c.toNat + 32 := by
  unfold pyToLower
  rw [dif_pos h]
  show (c.val + 32).toNat = c.toNat + 32
  have hv : (c.val + 32).toNat = (c.val.toNat + (32 : UInt32).toNat) % 2 ^ 32 := rfl
  have h3 : c.val.toNat = c.toNat := rfl
  have h32 : (32 : UInt32).toNat = 32 := rfl
  rw [hv, h32, h3]
  have h2 : c.toNat ≤ 90 := h.2
  omega

theorem pyToLower_eq_of_not_upper (c : Char) (h : ¬(65 ≤ c.toNat ∧ c.toNat ≤ 90)) :
    pyToLower c = c := by
  unfold pyToLower
  rw [dif_neg h]

theorem pyToLower_props (c : Char) (h : (pyIsWordChar c || isHyphen c) = true) :
    (pyIsWordChar (pyToLower c) || isHyphen (pyToLower c)) = true ∧
      pyIsUpper (pyToLower c) = false ∧ isWsChar (pyToLower c) = false := by
  by_cases hu : 65 ≤ c.toNat ∧ c.toNat ≤ 90
  · have ht := pyToLower_toNat_of_upper c hu
    refine ⟨?_, ?_, ?_⟩ <;>
      simp only [pyIsWordChar, isHyphen, pyIsUpper, isWsChar, ht, Bool.or_eq_true,
        Bool.and_eq_true, decide_eq_true_eq, Bool.or_eq_false_iff, Bool.and_eq_false_iff,
        decide_eq_false_iff_not] <;> omega
  · have heq := pyToLower_eq_of_not_upper c hu
    rw [heq]
    refine ⟨h, ?_, ?_⟩
    · simp only [pyIsUpper, Bool.and_eq_false_iff, decide_eq_false_iff_not]
      omega
    · simp only [pyIsWordChar, isHyphen, Bool.or_eq_true, Bool.and_eq_true,
        decide_eq_true_eq] at h
      simp only [isWsChar, Bool.or_eq_false_iff, decide_eq_false_iff_not]
      omega

theorem intentWords_props (s : String) :
    ∀ w ∈ intentWords s, w ≠ [] ∧ ∀ c ∈ w,
      (pyIsWordChar c || isHyphen c) = true ∧ pyIsUpper c = false ∧ isWsChar c = false := by
  intro w hw
  unfold intentWords at hw
  rw [List.mem_filterMap] at hw
  obtain ⟨a, -, ha⟩ := hw
  by_cases hcw : (cleanWord a).isEmpty
  · simp [hcw] at ha
  · dsimp only at ha
    rw [if_neg hcw, Option.some.injEq] at ha
    subst ha
    constructor
    · intro hnil
      rw [List.map_eq_nil_iff] at hnil
      rw [hnil] at hcw
      simp at hcw
    · intro c hc
      rw [List.mem_map] at hc
      obtain ⟨c0, hc0, rfl⟩ := hc
      unfold cleanWord at hc0
      rw [List.mem_filter] at hc0
      exact pyToLower_props c0 hc0.2

theorem intentWords_of_trim_empty (s : String) (h : trimWs s.data = []) :
    intentWords s = [] := by
  unfold intentWords
  rw [h]
  rfl

theorem pyMaxLang_ge (f : Lang → ℚ) (l : Lang) : f l ≤ f (pyMaxLang f) := by
  cases l <;> (dsimp only [pyMaxLang]; split_ifs <;> linarith)

theorem simple_loop_counts_sum (proc : Nat → ProcOutcome) (save : Nat → Bool) :
    ∀ (rows : List SrcRow) (i : Nat) (c : Counts),
      (process_excel_simple_loop proc save rows i c).processed +
        (process_excel_simple_loop proc save rows i c).failed +
        (process_excel_simple_loop proc save rows i c).skipped =
      c.processed + c.failed + c.skipped + rows.length := by
  intro rows
  induction rows with
  | nil => intro i c; simp [process_excel_simple_loop]
  | cons row rest ih =>
    intro i c
    simp only [process_excel_simple_loop]
    rw [ih]
    have hstep : (simpleStep (proc i) (save i) row.2 c).processed +
        (simpleStep (proc i) (save i) row.2 c).failed +
        (simpleStep (proc i) (save i) row.2 c).skipped =
        c.processed + c.failed + c.skipped + 1 := by
      unfold simpleStep
      by_cases hb : pyBlankCell row.2 = true
      · rw [if_pos hb]
        dsimp only
        omega
      · rw [if_neg hb]
        cases proc i with
        | raised e => dsimp only; omega
        | returnedNone => dsimp only; omega
        | returned r =>
          dsimp only
          split_ifs <;> dsimp only <;> omega
    rw [hstep]
    simp only [List.length_cons]
    omega

/-! ## Claim theorems -/

/-- C1: for every value of the `api_key` argument (including `None`),
constructing `IntentAnalyzer` or `TranscribeProcessor` raises `TypeError`
before any row is processed, because both pass `api_key` as a keyword
argument to `LLMModule.__init__`, whose parameters are only `model_name`,
`use_cpu` and `num_gpu`; hence a batch entry point that builds a
`TranscribeProcessor` (here `process_excel_simple`) crashes at
initialisation, with the row loop never run. -/
theorem c1_init_type_error :
    (∀ (m : String) (k : Option String), intent_analyzer_init m k = .error .typeError) ∧
    (∀ (m : String) (k : Option String) (store : Option (List ExcelRow)),
      transcribe_processor_init m k store = .error .typeError) ∧
    (∀ (key : String) (source : List SrcRow) (store : Option (List ExcelRow))
        (proc : Nat → ProcOutcome) (save : Nat → Bool), key ≠ "" →
      process_excel_simple_entry (some key) (some source) store proc save =
        .crashed .typeError) := by
  refine ⟨fun m k => rfl, fun m k store => rfl,
    fun key source store proc save hk => ?_⟩
  unfold process_excel_simple_entry
  have : pyTruthyStr (some key) = true := by
    simp [pyTruthyStr, hk]
  rw [this]
  rfl

/-- C1 witness: the entry point with a concrete key, source and store
crashes with `TypeError`. -/
theorem c1_init_type_error_witness :
    process_excel_simple_entry (some "sk-12345") (some [(some "a", some "t")]) none
      (fun _ => ProcOutcome.returnedNone) (fun _ => false) = .crashed .typeError :=
  c1_init_type_error.2.2 "sk-12345" [(some "a", some "t")] none
    (fun _ => ProcOutcome.returnedNone) (fun _ => false) (by decide)

/-- C4: evaluation of the three batch runners on the scenario batch of 5
rows (row indices 2 to 6) where the third row has an empty transcript and
the fourth row always raises.  The sequential and batched runners report
`{processed: 3, failed: 1, skipped: 1}` as the claim states, but the
concurrent pool runner (`process_from_excel_fast`) increments `failed` as
well as `skipped` for the empty row and reports
`{processed: 3, failed: 2, skipped: 1}`. -/
theorem c4_empty_row_counts :
    process_from_excel_fast_loop
        (fun n => if n = 5 then ProcOutcome.raised "service down" else ProcOutcome.returned ⟨"a", "t", "s", "i"⟩)
        (fun _ => false)
        [(some "a1", some "t1"), (some "a2", some "t2"), (some "a3", some ""),
          (some "a4", some "t4"), (some "a5", some "t5")] 2 ⟨0, 0, 0⟩ = ⟨3, 2, 1⟩ ∧
    process_excel_simple_loop
        (fun n => if n = 5 then ProcOutcome.raised "service down" else ProcOutcome.returned ⟨"a", "t", "s", "i"⟩)
        (fun _ => false)
        [(some "a1", some "t1"), (some "a2", some "t2"), (some "a3", some ""),
          (some "a4", some "t4"), (some "a5", some "t5")] 2 ⟨0, 0, 0⟩ = ⟨3, 1, 1⟩ ∧
    process_from_excel_optimized_loop
        (fun n => if n = 5 then ProcOutcome.raised "service down" else ProcOutcome.returned ⟨"a", "t", "s", "i"⟩)
        (fun _ => false)
        [(some "a1", some "t1"), (some "a2", some "t2"), (some "a3", some ""),
          (some "a4", some "t4"), (some "a5", some "t5")] 2 ⟨0, 0, 0⟩ = ⟨3, 1, 1⟩ := by
  refine ⟨by decide, by decide, by decide⟩

/-- C8: `find_last_processed_row` returns `n + 2` for an output store with a
header row plus `n` appended data rows, and `2` when the output file does
not exist. -/
theorem c8_next_row :
    find_last_processed_row none = 2 ∧
    ∀ (hdr : ExcelRow) (data : List ExcelRow),
      find_last_processed_row (some (hdr :: data)) = data.length + 2 := by
  refine ⟨rfl, fun hdr data => ?_⟩
  show pyMaxRow (hdr :: data) + 1 = data.length + 2
  unfold pyMaxRow
  simp only [List.length_cons]
  omega

/-- C9 (amended): a `save_to_excel` exception is caught by the per-row
handler of the sequential runner, so the run always completes with every
examined row classified into exactly one of the three counters, and a row
whose result was produced but whose save raised is counted as one row
failure (after which the loop continues with the remaining rows). -/
theorem c9_save_error_is_row_failure :
    (∀ (proc : Nat → ProcOutcome) (save : Nat → Bool) (rows : List SrcRow) (i : Nat),
      (process_excel_simple_loop proc save rows i ⟨0, 0, 0⟩).processed +
        (process_excel_simple_loop proc save rows i ⟨0, 0, 0⟩).failed +
        (process_excel_simple_loop proc save rows i ⟨0, 0, 0⟩).skipped = rows.length) ∧
    (∀ (r : AnalysisRow) (t : Option String) (c0 : Counts), pyBlankCell t = false →
      simpleStep (ProcOutcome.returned r) true t c0 = { c0 with failed := c0.failed + 1 }) := by
  constructor
  · intro proc save rows i
    have := simple_loop_counts_sum proc save rows i ⟨0, 0, 0⟩
    simpa using this
  · intro r t c0 hb
    unfold simpleStep
    rw [if_neg (by simp [hb]), if_pos rfl]

/-- C9 witness: the save-failure classification applied at a concrete row
and counter state. -/
theorem c9_save_error_is_row_failure_witness :
    simpleStep (ProcOutcome.returned ⟨"a", "t", "s", "i"⟩) true (some "text") ⟨5, 1, 2⟩ =
      ⟨5, 2, 2⟩ :=
  c9_save_error_is_row_failure.2 ⟨"a", "t", "s", "i"⟩ (some "text") ⟨5, 1, 2⟩ (by decide)

/-- C9 counterexample: three non-empty rows where the middle save raises;
the run is not aborted: the failing row is counted as one `failed`, and the
row after it is still processed, giving `{processed: 2, failed: 1,
skipped: 0}` — the exception does not propagate out of the row loop. -/
theorem c9_no_abort_counterexample :
    process_excel_simple_loop (fun _ => ProcOutcome.returned ⟨"a", "t", "s", "i"⟩)
        (fun n => n == 3)
        [(some "a1", some "t1"), (some "a2", some "t2"), (some "a3", some "t3")] 2
        ⟨0, 0, 0⟩ = ⟨2, 1, 0⟩ := by
  decide

/-- C2 counterexample: with a chat service that always raises a
non-memory error (`connection refused`), `generate` returns normally with
a fallback apology string — no exception reaches its caller — and
`analyze` therefore returns the parsed fallback text
`{intent: "i apologize but"}`, not `{intent: "unknown"}`. -/
theorem c2_generate_swallows_counterexample :
    (generate llmDefault (fun _ _ => ChatReply.raised "connection refused") (.ok [])
        "p" none 20 (2/10)).result = .ok (errorApology "connection refused") ∧
    analyze llmDefault (fun _ _ => ChatReply.raised "connection refused") (.ok [])
        "hello" = ⟨"i apologize but"⟩ ∧
    ("i apologize but" : String) ≠ "unknown" := by
  refine ⟨by decide, by decide, by decide⟩

/-- C2 (amended): for every behaviour of the chat service, `generate`
returns normally (it catches every service error internally and returns a
string), so `analyze` never sees a service exception; on a service failure
whose message is not routed to the memory/GPU retry path, `analyze` returns
the `_parse_response` of the fallback apology string rather than
`{intent: "unknown"}`. -/
theorem c2_generate_never_raises :
    (∀ (llm : LLMModule) (chat : Nat → ChatRequest → ChatReply)
        (listM : Except String (List String)) (p : String) (sp : Option String)
        (mt : Nat) (temp : ℚ),
      ∃ s, (generate llm chat listM p sp mt temp).result = Except.ok s) ∧
    (∀ (llm : LLMModule) (listM : Except String (List String)) (text e : String),
      isMemoryError e = false → text ≠ "" → (trimWs text.data).isEmpty = false →
      analyze llm (fun _ _ => ChatReply.raised e) listM text =
        parse_response (errorApology e)) := by
  constructor
  · intro llm chat listM p sp mt temp
    dsimp only [generate]
    repeat' first
      | exact ⟨_, rfl⟩
      | split
  · intro llm listM text e hmem htext htrim
    have hcond : (text = "" || (trimWs text.data).isEmpty) = false := by
      simp [htext, htrim]
    unfold analyze
    rw [hcond]
    dsimp only [generate, Bool.false_eq_true, if_false]
    rw [hmem]
    rfl

/-- C2 witness: the amended theorem applied at a concrete failing service
and input text. -/
theorem c2_generate_never_raises_witness :
    analyze llmDefault (fun _ _ => ChatReply.raised "no route to host") (.ok [])
      "hi there" = parse_response (errorApology "no route to host") :=
  c2_generate_never_raises.2 llmDefault (.ok []) "hi there" "no route to host"
    (by decide) (by decide) (by decide)

/-- C3 counterexample: with a chat service that raises a rate-limit error on
the first two calls and would succeed with `power cut` on the third,
`generate` makes exactly one chat call, performs zero backoff waits, and
returns the fallback apology; the `IntentAnalyzer` result is the parsed
fallback (`i apologize but`), not the third call content — there is no
retry, no exponential backoff, and no pair of backoff waits. -/
theorem c3_no_rate_limit_retry_counterexample :
    (generate llmDefault
        (fun n _ => if n ≤ 1 then ChatReply.raised "rate limit exceeded"
          else ChatReply.reply (some "power cut")) (.ok [])
        "p" none 20 (2/10)).chatCalls = 1 ∧
    (generate llmDefault
        (fun n _ => if n ≤ 1 then ChatReply.raised "rate limit exceeded"
          else ChatReply.reply (some "power cut")) (.ok [])
        "p" none 20 (2/10)).backoffWaits = 0 ∧
    (generate llmDefault
        (fun n _ => if n ≤ 1 then ChatReply.raised "rate limit exceeded"
          else ChatReply.reply (some "power cut")) (.ok [])
        "p" none 20 (2/10)).result = .ok (errorApology "rate limit exceeded") ∧
    analyze llmDefault
        (fun n _ => if n ≤ 1 then ChatReply.raised "rate limit exceeded"
          else ChatReply.reply (some "power cut")) (.ok [])
        "hello" = ⟨"i apologize but"⟩ := by
  refine ⟨by decide, by decide, by decide, by decide⟩

/-- C3 (amended): `generate` has no retry and no backoff for rate-limit
errors: any first-call service error whose message does not contain
`memory`, `gpu` or `500` is answered immediately with the generic fallback
string, after exactly one chat call and zero backoff waits, with the model
name unchanged. -/
theorem c3_no_rate_limit_retry (llm : LLMModule) (chat : Nat → ChatRequest → ChatReply)
    (listM : Except String (List String)) (p : String) (sp : Option String)
    (mt : Nat) (temp : ℚ) (e : String)
    (hmem : isMemoryError e = false)
    (hchat : ∀ r, chat 0 r = ChatReply.raised e) :
    generate llm chat listM p sp mt temp =
      ⟨Except.ok (errorApology e), 1, 0, llm.model_name⟩ := by
  dsimp only [generate]
  rw [hchat]
  dsimp only
  rw [hmem]
  rfl

/-- C3 witness: the amended theorem applied at a concrete rate-limit
message. -/
theorem c3_no_rate_limit_retry_witness :
    generate llmDefault (fun _ _ => ChatReply.raised "rate limit exceeded") (.ok [])
      "p" none 20 (2/10) =
      ⟨Except.ok (errorApology "rate limit exceeded"), 1, 0, "phi3:mini"⟩ :=
  c3_no_rate_limit_retry llmDefault (fun _ _ => ChatReply.raised "rate limit exceeded")
    (.ok []) "p" none 20 (2/10) "rate limit exceeded" (by decide) (fun r => rfl)

/-- C5 counterexample: on the empty string, `_parse_response` takes the
falsy-input early return and yields `{intent: ''}`, not
`{intent: "unknown"}`. -/
theorem c5_empty_response_counterexample : (parse_response "").intent ≠ "unknown" := by
  decide

/-- C5 (amended): the empty string returns `{intent: ''}` through the
falsy-input early return; every other input that is whitespace-only, or
whose cleaned word list is empty, yields exactly `unknown`. -/
theorem c5_unknown_on_empty_words :
    (parse_response "").intent = "" ∧
    ∀ s : String, s ≠ "" →
      ((trimWs s.data).isEmpty = true ∨ intentWords s = []) →
      (parse_response s).intent = "unknown" := by
  refine ⟨rfl, fun s hs hred => ?_⟩
  have hwords : intentWords s = [] := by
    rcases hred with h | h
    · exact intentWords_of_trim_empty s (by rwa [List.isEmpty_iff] at h)
    · exact h
  unfold parse_response
  rw [if_neg hs]
  dsimp only
  rw [hwords]
  rfl

/-- C5 witness: the amended theorem applied to a whitespace-only response
and to a response that cleans to nothing. -/
theorem c5_unknown_on_empty_words_witness :
    (parse_response "  ").intent = "unknown" ∧ (parse_response "?!.").intent = "unknown" :=
  ⟨c5_unknown_on_empty_words.2 "  " (by decide) (Or.inl (by decide)),
    c5_unknown_on_empty_words.2 "?!." (by decide) (Or.inr (by decide))⟩

/-- C6 counterexample: `_parse_response` keeps underscores (the regex class
`[^\w-]` strips only characters outside `\w` and hyphen, and `\w` contains
the underscore), so on input `power_cut` the resulting intent token contains
a character that is neither alphanumeric nor a hyphen. -/
theorem c6_underscore_counterexample :
    (parse_response "power_cut").intent = "power_cut" ∧
    '_' ∈ "power_cut".data ∧ Char.isAlphanum '_' = false ∧ '_' ≠ '-' := by
  refine ⟨by decide, by decide, by decide, by decide⟩

/-- C6 (amended): for every input, the intent built by `_parse_response` is
the space-join of at most 3 tokens, each non-empty, free of whitespace,
containing no upper-case ASCII letter, and made only of word characters
(alphanumerics or underscore) and hyphens.  The pipeline runs in the stated
order (trim, label strip, trim, quote strip, trailing-punctuation strip,
split/clean/lower-case, 3-token cap, space join) by definition of
`intentWords` and `parse_response`. -/
theorem c6_token_shape (s : String) :
    ∃ ws : List (List Char),
      (parse_response s).intent = String.mk (List.intercalate [' '] ws) ∧
      ws.length ≤ 3 ∧
      ∀ w ∈ ws, w ≠ [] ∧ ∀ c ∈ w,
        (pyIsWordChar c || isHyphen c) = true ∧ pyIsUpper c = false ∧
          isWsChar c = false := by
  by_cases hs : s = ""
  · subst hs
    exact ⟨[], by decide, by decide, by simp⟩
  · by_cases hw :
      (if (intentWords s).length > 3 then (intentWords s).take 3 else intentWords s).isEmpty
    · refine ⟨["unknown".data], ?_, by decide, by decide⟩
      unfold parse_response
      rw [if_neg hs]
      dsimp only
      rw [if_pos hw]
      decide
    · refine ⟨if (intentWords s).length > 3 then (intentWords s).take 3 else intentWords s,
        ?_, ?_, ?_⟩
      · unfold parse_response
        rw [if_neg hs]
        dsimp only
        rw [if_neg hw]
      · split_ifs with hlen
        · simp [List.length_take]
        · omega
      · intro w hmem
        have hw' : w ∈ intentWords s := by
          split_ifs at hmem with hlen
          · exact List.mem_of_mem_take hmem
          · exact hmem
        exact intentWords_props s w hw'

/-- C7: `_detect_language_from_text` returns the configured default language
whenever the text (after stripping) has no alphanumeric characters or its
highest per-language Unicode-block ratio is at most 0.1, and otherwise
returns the maximising language of the ratio dictionary (the first maximum
in the order telugu, hindi, urdu, english); the first conjunct shows the
selected language indeed carries the highest ratio. -/
theorem c7_threshold_default (isAlnum : Char → Bool) (dflt : Lang) (s : String) :
    (∀ l, langRatio isAlnum (trimWs s.data) l ≤
      langRatio isAlnum (trimWs s.data) (pyMaxLang (langRatio isAlnum (trimWs s.data)))) ∧
    detect_language_from_text isAlnum dflt s =
      if alnumCount isAlnum (trimWs s.data) = 0 ∨
          langRatio isAlnum (trimWs s.data)
            (pyMaxLang (langRatio isAlnum (trimWs s.data))) ≤ 1/10
        then dflt
        else pyMaxLang (langRatio isAlnum (trimWs s.data)) := by
  constructor
  · intro l
    exact pyMaxLang_ge (langRatio isAlnum (trimWs s.data)) l
  · unfold detect_language_from_text
    by_cases h0 : (s = "" || (trimWs s.data).isEmpty) = true
    · rw [if_pos h0]
      have ht : trimWs s.data = [] := by
        rcases Bool.or_eq_true_iff.mp h0 with h | h
        · have : s = "" := by simpa using h
          subst this
          rfl
        · rwa [List.isEmpty_iff] at h
      rw [ht]
      have : alnumCount isAlnum [] = 0 := rfl
      rw [if_pos (Or.inl this)]
    · rw [if_neg (by simpa using h0)]
      dsimp only
      by_cases htot : alnumCount isAlnum (trimWs s.data) = 0
      · rw [if_pos htot, if_pos (Or.inl htot)]
      · rw [if_neg htot]
        by_cases hr : langRatio isAlnum (trimWs s.data)
            (pyMaxLang (langRatio isAlnum (trimWs s.data))) > 1/10
        · rw [if_pos hr, if_neg]
          push_neg
          exact ⟨htot, hr⟩
        · rw [if_neg hr, if_pos (Or.inr (not_lt.mp hr))]

/-- C10 counterexample: a pre-existing store whose first cell is non-empty
but not the fixed header is left untouched by two consecutive
`_init_excel_file` calls, so its row 1 is not the fixed header. -/
theorem c10_garbage_header_counterexample :
    init_excel_file (some (init_excel_file (some [[some "garbage"]]))) =
      [[some "garbage"]] ∧
    (init_excel_file (some (init_excel_file (some [[some "garbage"]])))).head? ≠
      some excelHeader := by
  refine ⟨by decide, by decide⟩

/-- C10 (amended): `_init_excel_file` is idempotent for every store state
(the second call leaves the first call result unchanged, and never creates a
second header row, since it only ever overwrites row 1); after a call the
first cell is always non-empty; a missing file becomes exactly the header
row; a store whose first cell is empty gets the header written into row 1
with the remaining rows kept; and a store whose first cell is non-empty is
left untouched — row 1 therefore equals the fixed header only in the
missing-file and empty-first-cell cases. -/
theorem c10_init_idempotent :
    (∀ store, init_excel_file (some (init_excel_file store)) = init_excel_file store) ∧
    (∀ store, firstCellValue (init_excel_file store) ≠ none) ∧
    init_excel_file none = [excelHeader] ∧
    (∀ rows, firstCellValue rows = none →
      init_excel_file (some rows) = create_headers rows ∧
      (create_headers rows).head? = some excelHeader ∧
      (create_headers rows).tail = rows.tail) ∧
    (∀ rows, firstCellValue rows ≠ none → init_excel_file (some rows) = rows) := by
  have hch_head : ∀ rows : List ExcelRow, (create_headers rows).head? = some excelHeader := by
    intro rows
    cases rows <;> rfl
  have hch_tail : ∀ rows : List ExcelRow, (create_headers rows).tail = rows.tail := by
    intro rows
    cases rows <;> rfl
  have hfirst : ∀ store, firstCellValue (init_excel_file store) ≠ none := by
    intro store
    cases store with
    | none => decide
    | some rows =>
      simp only [init_excel_file]
      by_cases h : firstCellValue rows = none
      · rw [if_pos h]
        cases rows <;> simp [create_headers, firstCellValue, excelHeader]
      · rw [if_neg h]
        exact h
  refine ⟨?_, hfirst, rfl, ?_, ?_⟩
  · intro store
    have hx := hfirst store
    revert hx
    generalize init_excel_file store = x
    intro hx
    simp only [init_excel_file]
    rw [if_neg hx]
  · intro rows h
    refine ⟨?_, hch_head rows, hch_tail rows⟩
    simp only [init_excel_file]
    rw [if_pos h]
  · intro rows h
    simp only [init_excel_file]
    rw [if_neg h]

/-- C10 witness: the amended theorem applied to a store with an empty first
cell and to an already-initialised store. -/
theorem c10_init_idempotent_witness :
    (init_excel_file (some [[none], [some "x"]]) = create_headers [[none], [some "x"]] ∧
      (create_headers [[none], [some "x"]]).head? = some excelHeader ∧
      (create_headers [[none], [some "x"]]).tail = [[none], [some "x"]].tail) ∧
    init_excel_file (some [excelHeader, [some "y"]]) = [excelHeader, [some "y"]] :=
  ⟨c10_init_idempotent.2.2.2.1 [[none], [some "x"]] (by decide),
    c10_init_idempotent.2.2.2.2 [excelHeader, [some "y"]] (by decide)⟩
